import Mathlib

/-
Shallow embedding of the crowbarz/mqtt-base repository (Python) in Lean 4.

Modules embedded:
  src/mqtt_base/event.py      : AppEvent, RefreshEvent, EventQueue
  src/mqtt_base/mqtt.py       : MQTTConnectEvent, MQTTClient (credential
                                resolution, on_connect, publish)
  src/mqtt_base/mqtt_base.py  : MQTTBaseApp (_main_loop, _shutdown,
                                publish_mqtt, main.start)

Conventions: Python ints are Nat where the source only produces
non-negative values (paho result codes, QoS); Python None/str optionals
are Option String; Python exceptions are made explicit as Except results;
side effects (calls to the transport client, calls to the application
handler) are recorded as traces of actions.
-/

set_option autoImplicit false

namespace MqttBase

/-- Event taxonomy of src/mqtt_base/event.py and mqtt.py.
connectEvent is MQTTConnectEvent (flags and rc are the paho values,
flags collapsed to a Nat payload); refreshEvent is RefreshEvent;
customEvent stands for any application-defined AppEvent subclass. -/
inductive AppEvent where
  | connectEvent (flags : Nat) (rc : Nat)
  | refreshEvent
  | customEvent (tag : Nat)
  deriving DecidableEq, Repr

/-- State of the class-level EventQueue of event.py: the pending list
EventQueue.event_queue and the threading.Event flag EventQueue.event_flag
(modelled as a Bool: set or not set). -/
structure EventQueue where
  event_queue : List AppEvent
  event_flag : Bool
  deriving DecidableEq, Repr

/-- threading.Event.set: the wake flag becomes set. -/
def EventQueue.setFlag (q : EventQueue) : EventQueue :=
  { q with event_flag := true }

/-- AppEvent.__init__ (event.py lines 15-18): append self to
EventQueue.event_queue, then set EventQueue.event_flag. -/
def AppEvent.init (e : AppEvent) (q : EventQueue) : EventQueue :=
  EventQueue.setFlag { q with event_queue := q.event_queue ++ [e] }

/-- Effect on the shared queue state of running the constructor of an
event: RefreshEvent.__init__ (event.py lines 24-25) overrides the base
constructor with a no-op, every other event runs AppEvent.__init__. -/
def AppEvent.construct (e : AppEvent) (q : EventQueue) : EventQueue :=
  match e with
  | AppEvent.refreshEvent => q
  | _ => AppEvent.init e q

/-- EventQueue.pop (event.py lines 43-47): remove and return the head of
the pending list, or None when empty; never blocks. -/
def EventQueue.pop (q : EventQueue) : Option AppEvent × EventQueue :=
  match q.event_queue with
  | [] => (none, q)
  | e :: rest => (some e, { q with event_queue := rest })

/-- EventQueue.check (event.py lines 49-54): test-and-clear the wake
flag, reporting whether it was set. -/
def EventQueue.check (q : EventQueue) : Bool × EventQueue :=
  if q.event_flag then (true, { q with event_flag := false })
  else (false, q)

/-- Repeated EventQueue.pop with explicit fuel (each step pops once and
stops at the first None, exactly the while-walrus loop shape of
_main_loop). -/
def popAllGo : Nat → EventQueue → List AppEvent × EventQueue
  | 0, q => ([], q)
  | n + 1, q =>
    match EventQueue.pop q with
    | (none, q1) => ([], q1)
    | (some e, q1) =>
      let rest := popAllGo n q1
      (e :: rest.1, rest.2)

/-- Drain the queue by repeated pop; fuel equal to the pending length is
always enough. -/
def popAll (q : EventQueue) : List AppEvent × EventQueue :=
  popAllGo q.event_queue.length q

/-- Run the constructors of a list of events in order against the shared
queue state (each constructor returns before the next one runs). -/
def constructAll (events : List AppEvent) (q : EventQueue) : EventQueue :=
  events.foldl (fun acc e => AppEvent.construct e acc) q

/-- The queue operations that the two threads interleave: enqueue is the
construction of an event, check and pop are the consumer calls. -/
inductive QueueOp where
  | enqueue (e : AppEvent)
  | check
  | pop
  deriving DecidableEq, Repr

/-- Apply one queue operation to the shared state, keeping only the
state (the returned values of check and pop are not needed for the
signal invariant). -/
def applyOp (q : EventQueue) : QueueOp → EventQueue
  | QueueOp.enqueue e => AppEvent.construct e q
  | QueueOp.check => (EventQueue.check q).2
  | QueueOp.pop => (EventQueue.pop q).2

/-- Run a sequence of interleaved queue operations from a start state. -/
def runOps (q : EventQueue) (ops : List QueueOp) : EventQueue :=
  ops.foldl applyOp q

/-- Observable calls the main loop makes while processing events
(mqtt_base.py lines 116-130): self._publish_mqtt_discovery() and
self.handle_event(event). -/
inductive Action where
  | publishDiscovery
  | handleEvent (e : AppEvent)
  deriving DecidableEq, Repr

/-- True exactly for the publishDiscovery action. -/
def Action.isDiscovery : Action → Bool
  | Action.publishDiscovery => true
  | _ => false

/-- True exactly for MQTTConnectEvent instances (the isinstance test of
mqtt_base.py line 121). -/
def AppEvent.isConnect : AppEvent → Bool
  | AppEvent.connectEvent _ _ => true
  | _ => false

/-- True exactly for MQTTConnectEvent instances with rc equal to 0
(mqtt_base.py line 122). -/
def AppEvent.isSuccessConnect : AppEvent → Bool
  | AppEvent.connectEvent _ rc => decide (rc = 0)
  | _ => false

/-- Drain phase of MQTTBaseApp._main_loop (mqtt_base.py lines 119-125):
while event := event_queue.pop(): if the event is an MQTTConnectEvent
then (if event.rc == 0 set mqtt_connected) and call
_publish_mqtt_discovery(); then call handle_event(event). In this
repository neither _publish_mqtt_discovery (a pass statement, lines
101-103) nor the base handle_event (a log call) touches the queue, so
the queue evolves by pop alone; fuel equal to the pending length drains
it exactly. Returns the trace of calls, the final mqtt_connected flag
and the final queue state. -/
def drainLoop : Nat → EventQueue → Bool → List Action × Bool × EventQueue
  | 0, q, conn => ([], conn, q)
  | n + 1, q, conn =>
    match EventQueue.pop q with
    | (none, q1) => ([], conn, q1)
    | (some e, q1) =>
      let conn1 : Bool :=
        match e with
        | AppEvent.connectEvent _ rc => if rc = 0 then true else conn
        | _ => conn
      let acts : List Action :=
        match e with
        | AppEvent.connectEvent _ _ =>
          [Action.publishDiscovery, Action.handleEvent e]
        | _ => [Action.handleEvent e]
      let rest := drainLoop n q1 conn1
      (acts ++ rest.1, rest.2)

/-- Outcome of one iteration of MQTTBaseApp._main_loop after wait
returns: either the iteration completes (with the trace of handler and
discovery calls, the new mqtt_connected flag and the new queue state),
or it raises the connection-timeout Exception (mqtt_base.py line 130). -/
inductive IterOutcome where
  | normal (acts : List Action) (conn : Bool) (q : EventQueue)
  | timeoutError
  deriving DecidableEq, Repr

/-- Trace of calls made by an iteration (empty when the timeout
Exception is raised: the raise happens before any handler call). -/
def IterOutcome.actions : IterOutcome → List Action
  | IterOutcome.normal acts _ _ => acts
  | IterOutcome.timeoutError => []

/-- One iteration of MQTTBaseApp._main_loop (mqtt_base.py lines
117-130), starting after event_queue.wait returns: call check; if it
reports signaled, drain; else if mqtt_connected, construct a
RefreshEvent and hand it to handle_event directly; else raise the
timeout Exception. The recomputation of sleep_interval (line 131) has
no effect on the modelled state. -/
def mainLoopIter (conn : Bool) (q : EventQueue) : IterOutcome :=
  let c := EventQueue.check q
  if c.1 then
    let d := drainLoop c.2.event_queue.length c.2 conn
    IterOutcome.normal d.1 d.2.1 d.2.2
  else if conn then
    IterOutcome.normal [Action.handleEvent AppEvent.refreshEvent] conn
      (AppEvent.construct AppEvent.refreshEvent c.2)
  else
    IterOutcome.timeoutError

/-- Arguments of a call to the transport publish (paho client.publish). -/
structure PublishCall where
  topic : String
  payload : String
  qos : Nat
  retain : Bool
  deriving DecidableEq, Repr

/-- The birth_msg dict built in MQTTClient.__init__ (mqtt.py lines
47-54); None when no birth topic is configured. -/
structure BirthMsg where
  birth_topic : String
  birth_payload : String
  birth_qos : Nat
  birth_retain : Bool
  deriving DecidableEq, Repr

/-- Transport publish calls issued for the birth message (mqtt.py lines
104-111): one call when birth_msg is set, none otherwise. -/
def birthPublishes : Option BirthMsg → List PublishCall
  | some b => [⟨b.birth_topic, b.birth_payload, b.birth_qos, b.birth_retain⟩]
  | none => []

/-- MQTTClient.on_connect (mqtt.py lines 93-112): if rc > 0 log only;
else set self.connected and publish the birth message when configured;
in both branches finish by constructing MQTTConnectEvent(flags, rc),
whose base constructor enqueues it and sets the wake flag. Returns the
new connected flag, the transport publish calls made, and the new queue
state. -/
def MQTTClient.on_connect (birth_msg : Option BirthMsg) (connected : Bool)
    (flags rc : Nat) (q : EventQueue) : Bool × List PublishCall × EventQueue :=
  if rc > 0 then
    (connected, [], AppEvent.construct (AppEvent.connectEvent flags rc) q)
  else
    (true, birthPublishes birth_msg,
      AppEvent.construct (AppEvent.connectEvent flags rc) q)

/-- Behaviour of the underlying paho client.publish call as seen by
MQTTClient.publish: it returns a message-info object carrying a result
code, or raises ValueError (invalid topic, qos or payload), or raises
RuntimeError (transport not ready). -/
inductive TransportPublish where
  | ok (rc : Nat)
  | raisesValueError
  | raisesRuntimeError
  deriving DecidableEq, Repr

/-- Python exception that escapes MQTTClient.publish in the model. -/
inductive PyError where
  | unboundLocalError
  deriving DecidableEq, Repr

/-- MQTTClient.publish (mqtt.py lines 123-138). On a returned message:
rc > 0 logs and returns False, otherwise returns True. On RuntimeError:
logs and returns False. On ValueError: the handler evaluates msg.rc as
an argument of the log call, but a ValueError can only have been raised
by self.client.publish itself, before msg was assigned, so that
evaluation raises UnboundLocalError, which is caught by neither except
clause and escapes to the caller. -/
def MQTTClient.publish (outcome : TransportPublish) : Except PyError Bool :=
  match outcome with
  | TransportPublish.ok rc => if rc > 0 then Except.ok false else Except.ok true
  | TransportPublish.raisesValueError => Except.error PyError.unboundLocalError
  | TransportPublish.raisesRuntimeError => Except.ok false

/-- MQTTBaseApp.publish_mqtt (mqtt_base.py lines 85-87): declared to
return bool, but the body calls self._mqtt_client.publish without a
return statement, so the Python function returns None (modelled as
Option Bool with value none) whenever the client publish returns;
exceptions from the client propagate. -/
def MQTTBaseApp.publish_mqtt (outcome : TransportPublish) :
    Except PyError (Option Bool) :=
  match MQTTClient.publish outcome with
  | Except.ok _ => Except.ok none
  | Except.error e => Except.error e

/-- Python truthiness of an optional string argument: None and the
empty string are falsy, every other string is truthy. -/
def pyTruthy : Option String → Bool
  | none => false
  | some s => !s.isEmpty

/-- Python str.rstrip with no argument: drop trailing whitespace. -/
def pyRstrip (s : String) : String :=
  String.mk (s.data.reverse.dropWhile Char.isWhitespace).reverse

/-- Credential-resolution fragment of MQTTClient.__init__ (mqtt.py
lines 37-45). fs models Path(password_file).read_text(): file contents
on success, or the message of the raised OSError. Result: on the fatal
path, the wrapped Exception message; otherwise the (username, password)
pair handed to client.username_pw_set (none when the username is falsy
and the call is skipped) paired with whether the password file was
read. -/
def MQTTClient.initCredentials (username password password_file : Option String)
    (fs : String → Except String String) :
    Except String (Option (String × Option String) × Bool) :=
  if pyTruthy username then
    if !pyTruthy password && pyTruthy password_file then
      match fs (password_file.getD "") with
      | Except.ok contents =>
        Except.ok (some (username.getD "", some (pyRstrip contents)), true)
      | Except.error e =>
        Except.error ("cannot read password file: " ++ e)
    else
      Except.ok (some (username.getD "", password), false)
  else
    Except.ok (none, false)

/-- Exceptions that can reach the except clauses of main.start
(mqtt_base.py lines 195-209): KeyboardInterrupt; ExitApp (raised by an
explicit exit request or by the SIGTERM handler, carrying a return
code); and every other Exception subclass, including the
connection-timeout Exception raised by _main_loop. -/
inductive PyExc where
  | keyboardInterrupt
  | exitApp (rc : Nat)
  | exception (msg : String)
  deriving DecidableEq, Repr

/-- Teardown calls observable during shutdown. -/
inductive StartStep where
  | appShutdown
  | clientShutdown
  deriving DecidableEq, Repr

/-- MQTTBaseApp._shutdown (mqtt_base.py lines 133-138): call
self.shutdown(), then, if self._mqtt_client is truthy, call
self._mqtt_client.shutdown(). -/
def MQTTBaseApp.shutdownSeq (hasClient : Bool) : List StartStep :=
  StartStep.appShutdown ::
    (if hasClient then [StartStep.clientShutdown] else [])

/-- main.start (mqtt_base.py lines 193-212): run the body (setup plus
_main_loop, whose outcome is the body argument: _main_loop never
returns normally, but ok is included for totality); KeyboardInterrupt
keeps rc = 0, ExitApp sets rc to its code, any other Exception sets
rc = 255; the finally clause runs app._shutdown() on every path (the
application always holds an MQTTClient, assigned in __init__), then
exit(rc). Returns the process return code and the teardown trace. -/
def start (body : Except PyExc Unit) : Nat × List StartStep :=
  (match body with
   | Except.ok _ => 0
   | Except.error PyExc.keyboardInterrupt => 0
   | Except.error (PyExc.exitApp rc) => rc
   | Except.error (PyExc.exception _) => 255,
   MQTTBaseApp.shutdownSeq true)

/-- Helper: a check that reports not-signaled leaves the queue state
unchanged. -/
theorem aux_check_noclear (q : EventQueue) (h : (EventQueue.check q).1 = false) :
    (EventQueue.check q).2 = q := by
  by_cases hf : q.event_flag
  · simp [EventQueue.check, hf] at h
  · simp [EventQueue.check, hf]

/-- Helper: the drain loop, run with fuel equal to the pending length,
performs one publishDiscovery call per MQTTConnectEvent in the queue,
whatever the result codes. -/
theorem aux_drain_count (l : List AppEvent) : ∀ (f conn : Bool),
    (drainLoop l.length ⟨l, f⟩ conn).1.countP Action.isDiscovery
      = l.countP AppEvent.isConnect := by
  induction l with
  | nil => intro f conn; simp [drainLoop]
  | cons e rest ih =>
    intro f conn
    cases e <;>
      simp [drainLoop, EventQueue.pop, Action.isDiscovery, AppEvent.isConnect,
        List.countP_cons, List.countP_append, ih]

/-- Helper: the drain loop leaves mqtt_connected true exactly when it
was already true or some drained MQTTConnectEvent has result code 0. -/
theorem aux_drain_conn (l : List AppEvent) : ∀ (f conn : Bool),
    (drainLoop l.length ⟨l, f⟩ conn).2.1
      = (conn || l.any AppEvent.isSuccessConnect) := by
  induction l with
  | nil => intro f conn; simp [drainLoop]
  | cons e rest ih =>
    intro f conn
    cases e with
    | connectEvent fl rc =>
      by_cases h : rc = 0 <;>
        simp [drainLoop, EventQueue.pop, AppEvent.isSuccessConnect, h, ih]
    | refreshEvent =>
      simp [drainLoop, EventQueue.pop, AppEvent.isSuccessConnect, ih]
    | customEvent tag =>
      simp [drainLoop, EventQueue.pop, AppEvent.isSuccessConnect, ih]

/-- Helper: draining with fuel equal to the pending length returns the
whole pending list in order and empties the queue, leaving the flag
untouched. -/
theorem aux_popAllGo (l : List AppEvent) : ∀ (f : Bool),
    popAllGo l.length ⟨l, f⟩ = (l, ⟨[], f⟩) := by
  induction l with
  | nil => intro f; rfl
  | cons e rest ih =>
    intro f
    simp [popAllGo, EventQueue.pop, ih]

/-- Helper: running the constructors of a refresh-free event list
appends exactly those events in order. -/
theorem aux_constructAll (events : List AppEvent) : ∀ (q0 : EventQueue),
    AppEvent.refreshEvent ∉ events →
    (constructAll events q0).event_queue = q0.event_queue ++ events := by
  induction events with
  | nil => intro q0 _; simp [constructAll]
  | cons e rest ih =>
    intro q0 h
    have he : AppEvent.refreshEvent ≠ e := fun hh => h (hh ▸ List.mem_cons_self _ _)
    have hrest : AppEvent.refreshEvent ∉ rest := fun hh => h (List.mem_cons_of_mem _ hh)
    have step : constructAll (e :: rest) q0 = constructAll rest (AppEvent.construct e q0) := rfl
    rw [step, ih (AppEvent.construct e q0) hrest]
    cases e with
    | connectEvent fl rc =>
      simp [AppEvent.construct, AppEvent.init, EventQueue.setFlag]
    | refreshEvent => exact absurd rfl he
    | customEvent tag =>
      simp [AppEvent.construct, AppEvent.init, EventQueue.setFlag]

/-- Helper: the signal invariant (non-empty pending list implies the
wake flag is set) is preserved by any interleaving of event
construction and pop, when no check occurs. -/
theorem aux_runOps_inv (ops : List QueueOp) : ∀ (q0 : EventQueue),
    (q0.event_queue ≠ [] → q0.event_flag = true) →
    QueueOp.check ∉ ops →
    ((runOps q0 ops).event_queue ≠ [] → (runOps q0 ops).event_flag = true) := by
  induction ops with
  | nil => intro q0 h0 _; exact h0
  | cons op rest ih =>
    intro q0 h0 hops
    have hop : op ≠ QueueOp.check := fun hh => hops (hh ▸ List.mem_cons_self _ _)
    have hrest : QueueOp.check ∉ rest := fun hh => hops (List.mem_cons_of_mem _ hh)
    have step : runOps q0 (op :: rest) = runOps (applyOp q0 op) rest := rfl
    rw [step]
    refine ih (applyOp q0 op) ?_ hrest
    cases op with
    | enqueue e =>
      cases e with
      | connectEvent fl rc =>
        intro _; simp [applyOp, AppEvent.construct, AppEvent.init, EventQueue.setFlag]
      | refreshEvent =>
        intro h; exact h0 h
      | customEvent tag =>
        intro _; simp [applyOp, AppEvent.construct, AppEvent.init, EventQueue.setFlag]
    | check => exact absurd rfl hop
    | pop =>
      cases hq : q0.event_queue with
      | nil =>
        intro h
        simp [applyOp, EventQueue.pop, hq] at h
      | cons e rest2 =>
        intro h
        have : q0.event_flag = true := h0 (by simp [hq])
        simpa [applyOp, EventQueue.pop, hq] using this

/-- C1 counterexample: a drained MQTTConnectEvent with failure code 1
does trigger a _publish_mqtt_discovery call, and a batch of two success
MQTTConnectEvents triggers the call twice, both refuting the claim that
discovery is published only on a success code and exactly once. -/
theorem c1_counterexample :
    Action.publishDiscovery ∈
        (mainLoopIter false ⟨[AppEvent.connectEvent 0 1], true⟩).actions ∧
    (mainLoopIter false
        ⟨[AppEvent.connectEvent 0 0, AppEvent.connectEvent 0 0], true⟩).actions.countP
        Action.isDiscovery = 2 := by
  decide

/-- C1 amended: in the drain phase, _publish_mqtt_discovery is called
once per popped MQTTConnectEvent, regardless of its result code and of
the current connected flag; it is called before the event is forwarded
to handle_event; and the connected flag ends true exactly when it was
already true or some popped MQTTConnectEvent carries result code 0. -/
theorem c1_drain_discovery (l : List AppEvent) (f conn : Bool) (fl rc : Nat) :
    ((drainLoop l.length ⟨l, f⟩ conn).1.countP Action.isDiscovery
        = l.countP AppEvent.isConnect) ∧
    ((drainLoop l.length ⟨l, f⟩ conn).2.1
        = (conn || l.any AppEvent.isSuccessConnect)) ∧
    (drainLoop (AppEvent.connectEvent fl rc :: l).length
        ⟨AppEvent.connectEvent fl rc :: l, f⟩ conn
      = (Action.publishDiscovery
            :: Action.handleEvent (AppEvent.connectEvent fl rc)
            :: (drainLoop l.length ⟨l, f⟩ (if rc = 0 then true else conn)).1,
         (drainLoop l.length ⟨l, f⟩ (if rc = 0 then true else conn)).2)) := by
  refine ⟨aux_drain_count l f conn, aux_drain_conn l f conn, ?_⟩
  simp [drainLoop, EventQueue.pop]

/-- C2 evaluation: MQTTClient.publish returns True on an accepting
result code, False on a broker-rejecting result code, False on
RuntimeError, but on ValueError the except clause evaluates the unbound
msg.rc and an UnboundLocalError escapes to the caller, contradicting
the never-throws part of the claim. -/
theorem c2_publish_eval :
    MQTTClient.publish TransportPublish.raisesValueError
        = Except.error PyError.unboundLocalError ∧
    (∀ rc : Nat, MQTTClient.publish (TransportPublish.ok rc)
        = Except.ok (decide (rc = 0))) ∧
    MQTTClient.publish TransportPublish.raisesRuntimeError = Except.ok false := by
  refine ⟨rfl, ?_, rfl⟩
  intro rc
  cases rc with
  | zero => rfl
  | succ n => simp [MQTTClient.publish]

/-- C3: when check reports no events and the connected flag is still
false, the iteration raises the timeout Exception and delivers no
event, in particular no RefreshEvent. -/
theorem c3_connect_timeout (conn : Bool) (q : EventQueue)
    (hc : (EventQueue.check q).1 = false) (hconn : conn = false) :
    mainLoopIter conn q = IterOutcome.timeoutError ∧
    Action.handleEvent AppEvent.refreshEvent ∉ (mainLoopIter conn q).actions := by
  subst hconn
  have hmain : mainLoopIter false q = IterOutcome.timeoutError := by
    simp [mainLoopIter, hc]
  exact ⟨hmain, by simp [hmain, IterOutcome.actions]⟩

/-- Witness for C3 at the concrete state with an empty queue and clear
flag: the iteration raises the timeout Exception. -/
theorem c3_connect_timeout_witness :
    mainLoopIter false ⟨[], false⟩ = IterOutcome.timeoutError :=
  (c3_connect_timeout false ⟨[], false⟩ rfl rfl).1

/-- C4: on_connect, for every result code, enqueues exactly one
MQTTConnectEvent carrying (flags, rc) and sets the wake flag; on a
failure code it leaves the connected flag unchanged and publishes
nothing; on the success code it sets connected and publishes the birth
message exactly when one is configured. -/
theorem c4_on_connect_contract (birth : Option BirthMsg) (connected : Bool)
    (flags rc : Nat) (q : EventQueue) :
    ((MQTTClient.on_connect birth connected flags rc q).2.2).event_queue
        = q.event_queue ++ [AppEvent.connectEvent flags rc] ∧
    ((MQTTClient.on_connect birth connected flags rc q).2.2).event_flag = true ∧
    ((MQTTClient.on_connect birth connected flags rc q).1
        = if rc > 0 then connected else true) ∧
    ((MQTTClient.on_connect birth connected flags rc q).2.1
        = if rc > 0 then [] else birthPublishes birth) := by
  by_cases h : rc > 0 <;>
    simp [MQTTClient.on_connect, AppEvent.construct, AppEvent.init,
      EventQueue.setFlag, h]

/-- C5: when check reports no events and the connected flag is true,
the iteration hands exactly one RefreshEvent directly to handle_event
with the queue state untouched, and constructing a RefreshEvent never
appends to the queue and never sets the wake flag. -/
theorem c5_refresh_direct (conn : Bool) (q : EventQueue)
    (hc : (EventQueue.check q).1 = false) (hconn : conn = true) :
    mainLoopIter conn q
        = IterOutcome.normal [Action.handleEvent AppEvent.refreshEvent] conn q ∧
    (∀ q2 : EventQueue, AppEvent.construct AppEvent.refreshEvent q2 = q2) := by
  subst hconn
  have h2 : (EventQueue.check q).2 = q := aux_check_noclear q hc
  refine ⟨?_, fun q2 => rfl⟩
  simp [mainLoopIter, hc, h2, AppEvent.construct]

/-- Witness for C5 at the concrete connected state with an empty queue
and clear flag: exactly one RefreshEvent is delivered directly. -/
theorem c5_refresh_direct_witness :
    mainLoopIter true ⟨[], false⟩
      = IterOutcome.normal [Action.handleEvent AppEvent.refreshEvent] true
          ⟨[], false⟩ :=
  (c5_refresh_direct true ⟨[], false⟩ rfl rfl).1

/-- C6: constructing a refresh-free list of events appends exactly
those events in order (construction order is enqueue order); repeated
pop returns any pending sequence in insertion order and leaves the
queue empty; pop on an empty queue returns none. -/
theorem c6_fifo (events : List AppEvent) (q0 : EventQueue)
    (h : AppEvent.refreshEvent ∉ events) :
    (constructAll events q0).event_queue = q0.event_queue ++ events ∧
    (∀ q : EventQueue, (popAll q).1 = q.event_queue ∧ ((popAll q).2).event_queue = []) ∧
    (∀ fl : Bool, EventQueue.pop ⟨[], fl⟩ = (none, ⟨[], fl⟩)) := by
  refine ⟨aux_constructAll events q0 h, ?_, fun fl => rfl⟩
  intro q
  cases q with
  | mk l f =>
    constructor
    · simp [popAll, aux_popAllGo]
    · simp [popAll, aux_popAllGo]

/-- Witness for C6 at a concrete two-event sequence starting from the
initial queue state: the pending list is exactly that sequence. -/
theorem c6_fifo_witness :
    (constructAll [AppEvent.connectEvent 0 0, AppEvent.customEvent 7]
        ⟨[], false⟩).event_queue
      = [] ++ [AppEvent.connectEvent 0 0, AppEvent.customEvent 7] :=
  (c6_fifo [AppEvent.connectEvent 0 0, AppEvent.customEvent 7] ⟨[], false⟩
    (by decide)).1

/-- C7 counterexample: after the interleaving enqueue-then-check, the
pending sequence is non-empty while the wake flag is clear, refuting
the claim that the invariant holds at every point of interleavings that
include check. -/
theorem c7_counterexample :
    (runOps ⟨[], false⟩
        [QueueOp.enqueue (AppEvent.connectEvent 0 0), QueueOp.check]).event_queue
        ≠ [] ∧
    (runOps ⟨[], false⟩
        [QueueOp.enqueue (AppEvent.connectEvent 0 0), QueueOp.check]).event_flag
        = false := by
  decide

/-- C7 amended: over any interleaving of event construction and pop
that contains no check, from a state satisfying the invariant, a
non-empty pending sequence implies the wake flag is set; and setting
the flag is idempotent. -/
theorem c7_signal_invariant (ops : List QueueOp) (q0 : EventQueue)
    (hq0 : q0.event_queue ≠ [] → q0.event_flag = true)
    (hops : QueueOp.check ∉ ops) :
    ((runOps q0 ops).event_queue ≠ [] → (runOps q0 ops).event_flag = true) ∧
    (∀ q : EventQueue, EventQueue.setFlag (EventQueue.setFlag q)
        = EventQueue.setFlag q) :=
  ⟨aux_runOps_inv ops q0 hq0 hops, fun _ => rfl⟩

/-- Witness for C7 amended at a concrete check-free interleaving whose
final pending sequence is non-empty: the wake flag is set. -/
theorem c7_signal_invariant_witness :
    (runOps ⟨[], false⟩
        [QueueOp.enqueue (AppEvent.connectEvent 0 0), QueueOp.pop,
          QueueOp.enqueue (AppEvent.customEvent 5)]).event_flag = true :=
  (c7_signal_invariant
      [QueueOp.enqueue (AppEvent.connectEvent 0 0), QueueOp.pop,
        QueueOp.enqueue (AppEvent.customEvent 5)]
      ⟨[], false⟩ (by decide) (by decide)).1 (by decide)

/-- C8 counterexample: with a username configured, an explicitly
supplied empty-string password does not win: the truthiness test reads
the password file anyway and its contents are used. -/
theorem c8_counterexample :
    MQTTClient.initCredentials (some "user") (some "") (some "pw.txt")
        (fun _ => Except.ok "filesecret")
      = Except.ok (some ("user", some "filesecret"), true) := by
  rfl

/-- C8 amended: with a username configured, a truthy (non-empty)
explicit password is used and the password file is not read; when the
explicit password is absent or empty and a truthy password file path is
configured, the file is read, its stripped contents become the
password, and a read failure aborts construction with the wrapped
fatal error message. -/
theorem c8_credentials (u : String) (p f : Option String)
    (fs : String → Except String String) (hu : pyTruthy (some u) = true) :
    (pyTruthy p = true →
      MQTTClient.initCredentials (some u) p f fs
        = Except.ok (some (u, p), false)) ∧
    (pyTruthy p = false → pyTruthy f = true →
      MQTTClient.initCredentials (some u) p f fs
        = match fs (f.getD "") with
          | Except.ok contents =>
            Except.ok (some (u, some (pyRstrip contents)), true)
          | Except.error e =>
            Except.error ("cannot read password file: " ++ e)) := by
  constructor
  · intro hp
    simp [MQTTClient.initCredentials, hu, hp]
  · intro hp hf
    simp [MQTTClient.initCredentials, hu, hp, hf]

/-- Witness for C8 amended at concrete inputs: the truthy explicit
password wins and the failing file-read function is never consulted. -/
theorem c8_credentials_witness :
    MQTTClient.initCredentials (some "u") (some "pw") (some "secrets.txt")
        (fun _ => Except.error "boom")
      = Except.ok (some ("u", some "pw"), false) :=
  (c8_credentials "u" (some "pw") (some "secrets.txt")
    (fun _ => Except.error "boom") rfl).1 rfl

/-- C9: on every exit path of main.start (normal return, keyboard
interrupt, ExitApp from a signal or explicit request, or any other
Exception such as the connect timeout) the teardown trace is exactly
one app shutdown followed by exactly one client shutdown, and the
return code is 255 for an unexpected Exception, 0 for a keyboard
interrupt, and the carried code for ExitApp. -/
theorem c9_shutdown_once (body : Except PyExc Unit) :
    (start body).2 = [StartStep.appShutdown, StartStep.clientShutdown] ∧
    (start body).2.countP (fun s => decide (s = StartStep.appShutdown)) = 1 ∧
    (start body).2.countP (fun s => decide (s = StartStep.clientShutdown)) = 1 ∧
    (start (Except.error
        (PyExc.exception "connection to MQTT broker timed out"))).1 = 255 ∧
    (start (Except.error PyExc.keyboardInterrupt)).1 = 0 ∧
    (∀ rc : Nat, (start (Except.error (PyExc.exitApp rc))).1 = rc) :=
  ⟨rfl, rfl, rfl, rfl, rfl, fun _ => rfl⟩

/-- C10: publish_mqtt forwards to MQTTClient.publish and, whenever the
client publish returns a boolean, discards it and returns None despite
the declared bool return type. -/
theorem c10_publish_mqtt_none (outcome : TransportPublish) (b : Bool)
    (h : MQTTClient.publish outcome = Except.ok b) :
    MQTTBaseApp.publish_mqtt outcome = Except.ok none := by
  simp [MQTTBaseApp.publish_mqtt, h]

/-- Witness for C10 at a concrete accepted publish: the client returns
True and publish_mqtt returns None. -/
theorem c10_publish_mqtt_none_witness :
    MQTTBaseApp.publish_mqtt (TransportPublish.ok 0) = Except.ok none :=
  c10_publish_mqtt_none (TransportPublish.ok 0) true rfl

end MqttBase
